import Mathlib

/-!
Shallow embedding of `sushy_tools/emulator/resources/systems/hypervdriver.py`
(the Hyper-V systems driver of sushy-tools) and proofs about its boot-order
and power-state logic.

Backend (os_win / WMI) values are opaque integer constants to the driver;
they are modelled as distinct naturals.  VM records seen through the backend
are modelled as structures carrying exactly the fields the driver reads.
Python exceptions are modelled with an explicit `Exn` type and fallible code
returns `Except Exn _`.
-/

namespace HyperV

/-- Python exceptions that the driver's code paths can raise or handle.
`fishyError` models `error.FishyError`; `notSupportedError` models
`error.NotSupportedError`, a subclass of `FishyError`.  `valueError`,
`indexError` and `stopIteration` model the builtin exceptions raised by
`list.remove`, `list[0]` and `next()`; `other` models any remaining
backend exception. -/
inductive Exn : Type
  | fishyError (msg : String)
  | notSupportedError
  | valueError
  | indexError
  | stopIteration
  | other (msg : String)
deriving DecidableEq, Repr

/-- `isinstance(ex, error.FishyError)`: true exactly for this layer's own
error kinds (`FishyError` and its subclass `NotSupportedError`). -/
def Exn.isFishy : Exn → Bool
  | .fishyError _ => true
  | .notSupportedError => true
  | _ => false

/-- `str(ex)`, as interpolated into wrapped error messages. -/
def Exn.toStr : Exn → String
  | .fishyError m => m
  | .notSupportedError => "not supported"
  | .valueError => "list.remove(x): x not in list"
  | .indexError => "list index out of range"
  | .stopIteration => "StopIteration"
  | .other m => m

/-! ### External backend constants (os_win.constants)

The driver only relies on these being distinct; the concrete values are the
external collaborator's. -/

def HYPERV_VM_STATE_ENABLED : Nat := 2
def HYPERV_VM_STATE_DISABLED : Nat := 3
def HYPERV_VM_STATE_REBOOT : Nat := 10
def HYPERV_VM_STATE_PAUSED : Nat := 32768

def BOOT_DEVICE_FLOPPY : Nat := 0
def BOOT_DEVICE_CDROM : Nat := 1
def BOOT_DEVICE_HARDDISK : Nat := 2
def BOOT_DEVICE_NETWORK : Nat := 3

def VM_GEN_1 : Nat := 1
def VM_GEN_2 : Nat := 2

/-! ### Module-level constants of hypervdriver.py -/

def _BOOT_SOURCE_TYPE_DRIVE : Nat := 1
def _BOOT_SOURCE_TYPE_NETWORK : Nat := 2

/-- Resource sub-types used to classify generation-2 drive records
(`_DISK_DRIVE_RES_SUB_TYPE`, `_DVD_DRIVE_RES_SUB_TYPE` on vmutils);
modelled as distinct naturals, `0` standing for any other sub-type. -/
def _DISK_DRIVE_RES_SUB_TYPE : Nat := 10
def _DVD_DRIVE_RES_SUB_TYPE : Nat := 11

/-- `cls._VM_STATE_MAP`: dict from power-transition literal to the backend
state constant.  `dict.get` semantics: `none` for unmapped keys. -/
def _VM_STATE_MAP : String → Option Nat
  | "On" => some HYPERV_VM_STATE_ENABLED
  | "ForceOn" => some HYPERV_VM_STATE_ENABLED
  | "ForceOff" => some HYPERV_VM_STATE_DISABLED
  | "ForceRestart" => some HYPERV_VM_STATE_REBOOT
  | _ => none

/-- `cls._BOOT_ORDER_MAP` as an association list in dict insertion order,
used both for `.get` (key lookup) and `.items()` (ordered iteration). -/
def _BOOT_ORDER_MAP_items : List (String × Nat) :=
  [("Pxe", BOOT_DEVICE_NETWORK),
   ("Hdd", BOOT_DEVICE_HARDDISK),
   ("Cd", BOOT_DEVICE_CDROM)]

/-- `cls._BOOT_ORDER_MAP.get(boot_source)`. -/
def _BOOT_ORDER_MAP (boot_source : String) : Option Nat :=
  (_BOOT_ORDER_MAP_items.find? (fun kv => kv.1 == boot_source)).map (·.2)

/-! ### Generation-2 boot devices

A generation-2 `BootSourceOrder` entry is an opaque WMI path; the driver
resolves it with `_get_wmi_obj` to a record with a `BootSourceType`, and
(through the `_LOGICAL_IDENTITY_CLASS` association) to a resource record
with a `ResourceSubType`.  The embedding folds the path and both resolved
fields into one record, since each path resolves to fixed field values. -/

structure BootDevice : Type where
  /-- the opaque WMI path stored in `BootSourceOrder` -/
  path : Nat
  /-- `bssd.BootSourceType` after `_get_wmi_obj` -/
  BootSourceType : Nat
  /-- `rasd.ResourceSubType` of the associated resource record -/
  ResourceSubType : Nat
deriving DecidableEq, Repr

/-- The per-device test of the `for` loop in `_set_boot_device_gen2`:
a device is appended to `new_boot_devices` iff
`boot_source == "Pxe" and bssd.BootSourceType == _BOOT_SOURCE_TYPE_NETWORK`,
or else the associated record's sub-type matches the requested Hdd/Cd. -/
def matchesGen2 (boot_source : String) (d : BootDevice) : Bool :=
  if boot_source == "Pxe" && d.BootSourceType == _BOOT_SOURCE_TYPE_NETWORK then
    true
  else
    (boot_source == "Hdd" && d.ResourceSubType == _DISK_DRIVE_RES_SUB_TYPE)
      || (boot_source == "Cd" && d.ResourceSubType == _DVD_DRIVE_RES_SUB_TYPE)

/-- `_set_boot_device_gen2`: the `for` loop appends exactly the matching
devices in order (= `List.filter`), then the comprehension
`[d for d in old_boot_devices if d not in new_boot_devices]` appends the
remaining ones; the result is persisted as the new `BootSourceOrder`. -/
def _set_boot_device_gen2 (boot_source : String)
    (old_boot_devices : List BootDevice) : List BootDevice :=
  let new_boot_devices := old_boot_devices.filter (matchesGen2 boot_source)
  new_boot_devices
    ++ old_boot_devices.filter (fun d => decide (d ∉ new_boot_devices))

/-- `_get_boot_device_gen2`: empty order returns `None`; else classify the
first record: network → "Pxe"; drive → "Hdd"/"Cd" by the associated
sub-type; anything else falls off the end of the function (`None`). -/
def _get_boot_device_gen2 (boot_devices : List BootDevice) : Option String :=
  match boot_devices with
  | [] => none
  | bssd :: _ =>
    if bssd.BootSourceType == _BOOT_SOURCE_TYPE_NETWORK then some "Pxe"
    else if bssd.BootSourceType == _BOOT_SOURCE_TYPE_DRIVE then
      if bssd.ResourceSubType == _DISK_DRIVE_RES_SUB_TYPE then some "Hdd"
      else if bssd.ResourceSubType == _DVD_DRIVE_RES_SUB_TYPE then some "Cd"
      else none
    else none

/-! ### Generation-1 boot order -/

/-- `_get_boot_device_gen1`:
`next(k for (k, v) in _BOOT_ORDER_MAP.items() if v == boot_order[0])`.
`boot_order[0]` on an empty list raises `IndexError`; `next` with no
default raises `StopIteration` when no item's value matches. -/
def _get_boot_device_gen1 (boot_order : List Nat) : Except Exn String :=
  match boot_order with
  | [] => .error .indexError
  | first :: _ =>
    match _BOOT_ORDER_MAP_items.find? (fun kv => kv.2 == first) with
    | some kv => .ok kv.1
    | none => .error .stopIteration

/-- `_set_boot_device_gen1`: look the class up in `_BOOT_ORDER_MAP`
(`None` when unmapped), `boot_order.remove(boot_device)` (raises
`ValueError` when the element is absent — in particular always for `None`,
since the list holds integer tokens), `insert(0, boot_device)`, then
persist.  On success the persisted order is returned. -/
def _set_boot_device_gen1 (boot_order : List Nat) (boot_source : String) :
    Except Exn (List Nat) :=
  match _BOOT_ORDER_MAP boot_source with
  | none => .error .valueError
  | some boot_device =>
    if boot_device ∈ boot_order then
      .ok (boot_device :: boot_order.erase boot_device)
    else
      .error .valueError

/-- The boot order persisted after a generation-1 set: `set_boot_order` is
only reached when `_set_boot_device_gen1` did not raise, so on an exception
the stored order is the old one. -/
def persistedGen1 (boot_order : List Nat) (boot_source : String) :
    List Nat :=
  match _set_boot_device_gen1 boot_order boot_source with
  | .ok new_order => new_order
  | .error _ => boot_order

/-! ### Power state -/

/-- `get_power_state`: read the backend state and report `"On"` exactly for
`HYPERV_VM_STATE_ENABLED`, `"Off"` for every other reported state.  The
result is wrapped in `Option` because the abstract contract's result is
`On` / `Off` / `None`; this implementation never produces `none`. -/
def get_power_state (vm_state : Nat) : Option String :=
  some (if vm_state == HYPERV_VM_STATE_ENABLED then "On" else "Off")

/-- A primitive invocation against the backend made by `set_power_state`. -/
inductive BackendCall : Type
  | set_vm_state (identity : String) (vm_state : Nat)
  | soft_shutdown_vm (identity : String)
deriving DecidableEq, Repr

/-- The `try` body of `set_power_state`: resolve the transition through
`_VM_STATE_MAP`; a truthy mapping goes to `set_vm_state`, otherwise
`"GracefulShutdown"` goes to `soft_shutdown_vm` and anything else raises
`NotSupportedError`.  The backend's response to each primitive is supplied
by `resp`; the list records the primitives invoked, in order. -/
def set_power_state_body (resp : BackendCall → Except Exn Unit)
    (identity state : String) : List BackendCall × Except Exn Unit :=
  let soft_or_raise : List BackendCall × Except Exn Unit :=
    if state == "GracefulShutdown" then
      ([.soft_shutdown_vm identity], resp (.soft_shutdown_vm identity))
    else
      ([], .error .notSupportedError)
  match _VM_STATE_MAP state with
  | some vm_state =>
    if vm_state != 0 then
      ([.set_vm_state identity vm_state],
        resp (.set_vm_state identity vm_state))
    else soft_or_raise
  | none => soft_or_raise

/-- `set_power_state` with its `except` clauses: `FishyError` (and its
subclasses) re-raised unchanged; any other exception re-wrapped into a
`FishyError` whose message interpolates the requested state, the identity
and the original exception. -/
def set_power_state (resp : BackendCall → Except Exn Unit)
    (identity state : String) : List BackendCall × Except Exn Unit :=
  let body := set_power_state_body resp identity state
  match body.2 with
  | .ok u => (body.1, .ok u)
  | .error ex =>
    if ex.isFishy then (body.1, .error ex)
    else
      (body.1, .error (.fishyError
        ("Failed to set the power state \"" ++ state
          ++ "\" for Hyper-V VM \"" ++ identity ++ "\": " ++ ex.toStr)))

/-! ### Boot mode -/

/-- `get_boot_mode`: `"UEFI"` iff the VM generation is `VM_GEN_2`, else
`"Legacy"`; wrapped in `Option` per the contract (never `none` here). -/
def get_boot_mode (vm_gen : Nat) : Option String :=
  some (if vm_gen == VM_GEN_2 then "UEFI" else "Legacy")

/-- `set_boot_mode`: the body is `pass` — it returns without raising for
every identity and requested mode. -/
def set_boot_mode (identity : String) (boot_mode : String) :
    Except Exn Unit :=
  .ok ()

end HyperV

namespace HyperV

/-! ## Theorems -/

/-- For elements of `l`, not being in `l.filter p` is the same as failing
`p`; so the comprehension `[d for d in old if d not in new]` of
`_set_boot_device_gen2` filters exactly the non-matching devices. -/
theorem filter_not_mem_filter {α : Type} [DecidableEq α] (p : α → Bool)
    (l : List α) :
    l.filter (fun d => decide (d ∉ l.filter p)) = l.filter (fun d => !p d) := by
  refine List.filter_congr (fun d hd => ?_)
  by_cases h : p d
  · simp [List.mem_filter, hd, h]
  · simp [List.mem_filter, h]

/-- `_set_boot_device_gen2` is the stable partition
`matching ++ non-matching`, both sides as `List.filter`. -/
theorem set_gen2_eq_partition (bs : String) (old : List BootDevice) :
    _set_boot_device_gen2 bs old
      = old.filter (matchesGen2 bs)
        ++ old.filter (fun d => !matchesGen2 bs d) := by
  show old.filter (matchesGen2 bs)
        ++ old.filter (fun d => decide (d ∉ old.filter (matchesGen2 bs)))
      = _
  rw [filter_not_mem_filter]

/-- C1: for every generation-2 boot-order sequence, `set_boot_device`
produces a stable partition of the original device records: the records
matching the requested class come first in their original relative order,
then all remaining records in their original relative order; the multiset
of records is unchanged, and when at least one record matches, a matching
record sits at index 0 of the result. -/
theorem C1_set_gen2_stable_partition (bs : String) (old : List BootDevice) :
    (_set_boot_device_gen2 bs old).Perm old ∧
    _set_boot_device_gen2 bs old
      = old.filter (matchesGen2 bs)
        ++ old.filter (fun d => !matchesGen2 bs d) ∧
    ((∃ d ∈ old, matchesGen2 bs d = true) →
      ∃ d l, _set_boot_device_gen2 bs old = d :: l
        ∧ matchesGen2 bs d = true) := by
  have hpart := set_gen2_eq_partition bs old
  refine ⟨?_, hpart, ?_⟩
  · rw [hpart]; exact List.filter_append_perm _ _
  · rintro ⟨d, hd, hm⟩
    have hne : old.filter (matchesGen2 bs) ≠ [] := by
      intro h
      have hmem : d ∈ old.filter (matchesGen2 bs) :=
        List.mem_filter.mpr ⟨hd, hm⟩
      rw [h] at hmem
      exact List.not_mem_nil d hmem
    obtain ⟨a, l', hl⟩ := List.exists_cons_of_ne_nil hne
    refine ⟨a, l' ++ old.filter (fun d => !matchesGen2 bs d), ?_, ?_⟩
    · rw [hpart, hl]; rfl
    · have ha : a ∈ old.filter (matchesGen2 bs) := by
        rw [hl]; exact List.mem_cons_self a l'
      exact (List.mem_filter.mp ha).2

/-- Witness for C1 at the spec's own example: boot order
`[net0, disk0, dvd0]` with `set_boot_device(id, "Hdd")`. -/
theorem C1_set_gen2_stable_partition_witness :
    ∃ d l,
      _set_boot_device_gen2 "Hdd"
          [⟨1, 2, 0⟩, ⟨2, 1, 10⟩, ⟨3, 1, 11⟩] = d :: l
        ∧ matchesGen2 "Hdd" d = true :=
  (C1_set_gen2_stable_partition "Hdd" _).2.2
    ⟨⟨2, 1, 10⟩, by decide, by decide⟩

/-- C3: for every generation-2 boot-order sequence and boot class,
`set_boot_device` is idempotent: applying it twice yields the same
persisted sequence as applying it once. -/
theorem C3_set_gen2_idempotent (bs : String) (old : List BootDevice) :
    _set_boot_device_gen2 bs (_set_boot_device_gen2 bs old)
      = _set_boot_device_gen2 bs old := by
  rw [set_gen2_eq_partition bs (_set_boot_device_gen2 bs old),
    set_gen2_eq_partition bs old]
  simp [List.filter_append, List.filter_filter, Bool.and_self,
    Bool.and_not_self, Bool.not_and_self]

end HyperV

namespace HyperV

/-! ## Generation-1 boot order theorems -/

/-- `_BOOT_ORDER_MAP` only maps the three literals of the dict, each to its
backend token. -/
theorem boot_order_map_cases (bs : String) (tok : Nat)
    (h : _BOOT_ORDER_MAP bs = some tok) :
    (bs = "Pxe" ∧ tok = BOOT_DEVICE_NETWORK)
    ∨ (bs = "Hdd" ∧ tok = BOOT_DEVICE_HARDDISK)
    ∨ (bs = "Cd" ∧ tok = BOOT_DEVICE_CDROM) := by
  by_cases h1 : bs = "Pxe"
  · subst h1
    have e : _BOOT_ORDER_MAP "Pxe" = some BOOT_DEVICE_NETWORK := by decide
    rw [e] at h
    exact Or.inl ⟨rfl, (Option.some.inj h).symm⟩
  · by_cases h2 : bs = "Hdd"
    · subst h2
      have e : _BOOT_ORDER_MAP "Hdd" = some BOOT_DEVICE_HARDDISK := by decide
      rw [e] at h
      exact Or.inr (Or.inl ⟨rfl, (Option.some.inj h).symm⟩)
    · by_cases h3 : bs = "Cd"
      · subst h3
        have e : _BOOT_ORDER_MAP "Cd" = some BOOT_DEVICE_CDROM := by decide
        rw [e] at h
        exact Or.inr (Or.inr ⟨rfl, (Option.some.inj h).symm⟩)
      · exfalso
        have e1 : ("Pxe" == bs) = false :=
          beq_eq_false_iff_ne.mpr (Ne.symm h1)
        have e2 : ("Hdd" == bs) = false :=
          beq_eq_false_iff_ne.mpr (Ne.symm h2)
        have e3 : ("Cd" == bs) = false :=
          beq_eq_false_iff_ne.mpr (Ne.symm h3)
        simp [_BOOT_ORDER_MAP, _BOOT_ORDER_MAP_items, List.find?,
          e1, e2, e3] at h

/-- C2: for every generation-1 boot order containing the token `tok` that
the map assigns to class `bs`, `set_boot_device` persists
`tok :: (order minus its first tok)` — `[T] + (original order minus T)`,
all other entries in their original relative order — and a subsequent
`get_boot_device` returns `bs`, the class of `tok`. -/
theorem C2_set_get_gen1_roundtrip (bs : String) (tok : Nat)
    (order : List Nat)
    (hmap : _BOOT_ORDER_MAP bs = some tok) (hmem : tok ∈ order) :
    _set_boot_device_gen1 order bs = .ok (tok :: order.erase tok)
    ∧ persistedGen1 order bs = tok :: order.erase tok
    ∧ _get_boot_device_gen1 (persistedGen1 order bs) = .ok bs := by
  have hset : _set_boot_device_gen1 order bs
      = .ok (tok :: order.erase tok) := by
    unfold _set_boot_device_gen1
    rw [hmap]
    simp [hmem]
  have hpers : persistedGen1 order bs = tok :: order.erase tok := by
    unfold persistedGen1
    rw [hset]
  refine ⟨hset, hpers, ?_⟩
  rw [hpers]
  rcases boot_order_map_cases bs tok hmap with ⟨hb, ht⟩ | ⟨hb, ht⟩ | ⟨hb, ht⟩ <;>
    subst hb <;> subst ht <;> rfl

/-- Witness for C2: order `[NETWORK, HARDDISK, CDROM]`, class `"Hdd"`. -/
theorem C2_set_get_gen1_roundtrip_witness :
    _set_boot_device_gen1 [3, 2, 1] "Hdd" = .ok [2, 3, 1]
    ∧ persistedGen1 [3, 2, 1] "Hdd" = [2, 3, 1]
    ∧ _get_boot_device_gen1 (persistedGen1 [3, 2, 1] "Hdd") = .ok "Hdd" :=
  C2_set_get_gen1_roundtrip "Hdd" 2 [3, 2, 1] (by decide) (by decide)

/-- C8: a generation-1 set with a boot class that has no mapped token fails
(`list.remove(None)` raises `ValueError`) and the persisted boot order is
unchanged; no unmapped/`None` token is ever inserted. -/
theorem C8_set_gen1_unmapped_fails (bs : String) (order : List Nat)
    (h : _BOOT_ORDER_MAP bs = none) :
    _set_boot_device_gen1 order bs = .error .valueError
    ∧ persistedGen1 order bs = order := by
  have hset : _set_boot_device_gen1 order bs = .error .valueError := by
    unfold _set_boot_device_gen1
    rw [h]
  refine ⟨hset, ?_⟩
  unfold persistedGen1
  rw [hset]

/-- Witness for C8 at the unmapped class `"Floppy"`. -/
theorem C8_set_gen1_unmapped_fails_witness :
    _set_boot_device_gen1 [1, 2] "Floppy" = .error .valueError
    ∧ persistedGen1 [1, 2] "Floppy" = [1, 2] :=
  C8_set_gen1_unmapped_fails "Floppy" [1, 2] (by decide)

/-- C10: on an empty boot order the generation-1 getter raises
(`boot_order[0]` is an unconditional index, `IndexError`), while the
generation-2 getter returns the absent value. -/
theorem C10_get_empty_gen1_raises_gen2_absent :
    _get_boot_device_gen1 [] = .error .indexError
    ∧ _get_boot_device_gen2 [] = none :=
  ⟨rfl, rfl⟩

/-- C7 (behavior at the failing input): a generation-1 boot order whose
first token has no entry in `_BOOT_ORDER_MAP` makes the `next()` with no
default raise `StopIteration`, instead of the absent value promised by the
`get_boot_device` docstring. -/
theorem C7_get_gen1_unmapped_first_raises :
    _get_boot_device_gen1 [BOOT_DEVICE_FLOPPY] = .error .stopIteration :=
  rfl

end HyperV

namespace HyperV

/-! ## Power state theorems -/

/-- The `except` wrapper of `set_power_state` never changes which backend
primitives were invoked. -/
theorem set_power_state_fst (resp : BackendCall → Except Exn Unit)
    (identity state : String) :
    (set_power_state resp identity state).1
      = (set_power_state_body resp identity state).1 := by
  unfold set_power_state
  cases h : (set_power_state_body resp identity state).2 with
  | ok u => simp [h]
  | error e => by_cases hf : e.isFishy <;> simp [h, hf]

/-- The `try` body invokes at most one backend primitive: nothing is
retried. -/
theorem set_power_state_body_calls_le_one
    (resp : BackendCall → Except Exn Unit) (identity state : String) :
    (set_power_state_body resp identity state).1.length ≤ 1 := by
  unfold set_power_state_body
  cases h : _VM_STATE_MAP state with
  | none =>
    by_cases hg : state == "GracefulShutdown" <;> simp [h, hg]
  | some v =>
    by_cases hv : v != 0 <;>
      by_cases hg : state == "GracefulShutdown" <;> simp [h, hv, hg]

/-- C4: `set_power_state(id, "GracefulShutdown")` invokes exactly the
backend's soft-shutdown primitive (the transition has no entry in the hard
state-transition map), and `set_power_state(id, "Nmi")` raises
`NotSupportedError` because `_VM_STATE_MAP` has no mapping for it. -/
theorem C4_graceful_shutdown_and_nmi
    (resp : BackendCall → Except Exn Unit) (identity : String) :
    (set_power_state resp identity "GracefulShutdown").1
      = [BackendCall.soft_shutdown_vm identity]
    ∧ _VM_STATE_MAP "GracefulShutdown" = none
    ∧ (set_power_state resp identity "Nmi").2
      = .error .notSupportedError
    ∧ _VM_STATE_MAP "Nmi" = none := by
  refine ⟨?_, rfl, rfl, rfl⟩
  rw [set_power_state_fst]
  rfl

/-- C5: when the `try` body of `set_power_state` raises, an exception of
this layer's own kinds passes through unchanged, while any other exception
is re-wrapped into a `FishyError` whose message contains the requested
transition and the identity; in every case at most one backend primitive
was invoked (nothing is retried). -/
theorem C5_power_error_wrapping (resp : BackendCall → Except Exn Unit)
    (identity state : String) (e : Exn)
    (h : (set_power_state_body resp identity state).2 = .error e) :
    (e.isFishy = true →
      (set_power_state resp identity state).2 = .error e)
    ∧ (e.isFishy = false →
      ∃ m, (set_power_state resp identity state).2
          = .error (.fishyError m)
        ∧ (∃ a b, m = a ++ state ++ b)
        ∧ (∃ a b, m = a ++ identity ++ b))
    ∧ (set_power_state resp identity state).1.length ≤ 1 := by
  refine ⟨?_, ?_, ?_⟩
  · intro hf
    unfold set_power_state
    simp [h, hf]
  · intro hf
    refine ⟨"Failed to set the power state \"" ++ state
        ++ "\" for Hyper-V VM \"" ++ identity ++ "\": " ++ e.toStr, ?_, ?_, ?_⟩
    · unfold set_power_state
      simp [h, hf]
    · exact ⟨"Failed to set the power state \"",
        "\" for Hyper-V VM \"" ++ identity ++ "\": " ++ e.toStr,
        by simp [String.append_assoc]⟩
    · exact ⟨"Failed to set the power state \"" ++ state
          ++ "\" for Hyper-V VM \"",
        "\": " ++ e.toStr,
        by simp [String.append_assoc]⟩
  · rw [set_power_state_fst]
    exact set_power_state_body_calls_le_one resp identity state

/-- Witness for C5: the backend fails with a non-Fishy exception while
setting the "On" transition for VM "vm1". -/
theorem C5_power_error_wrapping_witness :
    ∃ m,
      (set_power_state (fun _ => .error (.other "boom")) "vm1" "On").2
        = .error (.fishyError m)
      ∧ (∃ a b, m = a ++ "On" ++ b)
      ∧ (∃ a b, m = a ++ "vm1" ++ b) :=
  (C5_power_error_wrapping (fun _ => .error (.other "boom")) "vm1" "On"
    (.other "boom") rfl).2.1 rfl

/-- C6 counterexample: the backend's paused state is neither the enabled
nor the disabled constant — not clearly on or off — yet `get_power_state`
reports the definite state `"Off"` instead of the absent value. -/
theorem C6_get_power_state_paused_counterexample :
    HYPERV_VM_STATE_PAUSED ≠ HYPERV_VM_STATE_ENABLED
    ∧ HYPERV_VM_STATE_PAUSED ≠ HYPERV_VM_STATE_DISABLED
    ∧ get_power_state HYPERV_VM_STATE_PAUSED = some "Off"
    ∧ get_power_state HYPERV_VM_STATE_PAUSED ≠ none :=
  ⟨by decide, by decide, rfl, by decide⟩

/-- C6 amended: `get_power_state` reports `"On"` exactly when the backend
reports the enabled state and `"Off"` for every other reported state; it
never returns the absent value and never raises for this reason. -/
theorem C6_get_power_state_total (vm_state : Nat) :
    (get_power_state vm_state = some "On"
      ∨ get_power_state vm_state = some "Off")
    ∧ (get_power_state vm_state = some "On"
        ↔ vm_state = HYPERV_VM_STATE_ENABLED)
    ∧ get_power_state vm_state ≠ none := by
  by_cases h : vm_state = HYPERV_VM_STATE_ENABLED
  · subst h
    exact ⟨Or.inl rfl, by simp [get_power_state], by decide⟩
  · have hb : (vm_state == HYPERV_VM_STATE_ENABLED) = false :=
      beq_eq_false_iff_ne.mpr h
    refine ⟨Or.inr ?_, ?_, ?_⟩ <;> simp [get_power_state, hb, h]

/-! ## Boot mode theorems -/

/-- C9: `get_boot_mode` returns `"UEFI"` exactly when the VM generation is
the generation-2 tag and `"Legacy"` otherwise, and `set_boot_mode` returns
without raising for every identity and boot-mode argument. -/
theorem C9_boot_mode (vm_gen : Nat) (identity boot_mode : String) :
    (get_boot_mode vm_gen = some "UEFI" ↔ vm_gen = VM_GEN_2)
    ∧ (vm_gen ≠ VM_GEN_2 → get_boot_mode vm_gen = some "Legacy")
    ∧ set_boot_mode identity boot_mode = .ok () := by
  refine ⟨?_, ?_, rfl⟩
  · by_cases h : vm_gen = VM_GEN_2
    · subst h
      simp [get_boot_mode]
    · have hb : (vm_gen == VM_GEN_2) = false := beq_eq_false_iff_ne.mpr h
      simp [get_boot_mode, hb, h]
  · intro h
    have hb : (vm_gen == VM_GEN_2) = false := beq_eq_false_iff_ne.mpr h
    simp [get_boot_mode, hb]

/-- Witness for C9 at a generation-1 VM. -/
theorem C9_boot_mode_witness :
    get_boot_mode VM_GEN_1 = some "Legacy" :=
  (C9_boot_mode VM_GEN_1 "vm1" "UEFI").2.1 (by decide)

end HyperV
